import Mathlib

/-!
Verification of the perf benchmark Runner (`perf/_runner.py`).

The development shallowly embeds the parts of `Runner` that the checked
properties are about:

* the parsed argument record (`argparse` namespace) as `Args`;
* `Runner._process_args` (lines 228-301) as `process_args`, decomposed into
  the successive mutation/check stages of the source, with `sys.exit(1)`
  rendered as `Except.error` carrying the printed diagnostic;
* the registration path `_check_worker_task` / `_main` (lines 366-399) as
  `check_worker_task` / `main_dispatch` / `register_task` over a
  `RunnerState`;
* the master orchestration loop `_spawn_workers` / `_spawn_worker`
  (lines 505-539 and 580-638) as `spawn_step` / `spawn_loop` /
  `spawn_workers`, with the observable behaviour of each child process
  (exit code and JSON payload) supplied by an oracle `Nat → WorkerResult`;
* the default resolution of `Runner.__init__` (lines 67-92) as
  `runner_init_defaults`.

Python machine integers are embedded as `Int` (with `Int.fdiv` for the
floor division `//`), Python floats as `ℚ`, and Python truthiness of the
optional argument fields as the `py_truthy_*` helpers.  External
collaborators that live outside `_runner.py` (the filesystem probe
`os.path.exists`, `abs_executable`, the memory-tracking availability
checks, worker subprocesses and the `perf.Benchmark` container) enter as
parameters, modelled from the specification where their behaviour matters.
-/

namespace Perf

/-- Python truthiness of an optional int field (`None` and `0` are falsy),
used for `args.pipe` at line 231. -/
def py_truthy_int_opt : Option Int → Bool
  | none => false
  | some v => v != 0

/-- Python truthiness of an optional nonnegative int field (`None` and `0`
are falsy), used for `args.worker_task` at line 270. -/
def py_truthy_nat_opt : Option Nat → Bool
  | none => false
  | some v => v != 0

/-- Python truthiness of an optional string field (`None` and the empty
string are falsy), used for `args.output`, `args.append` and
`args.compare_to`. -/
def py_truthy_str_opt : Option String → Bool
  | none => false
  | some s => s != ""

/-- The parsed argument namespace of the Runner argparser (lines 130-221),
restricted to the fields `_process_args`, the registration path and the
master loop read or write. -/
structure Args where
  rigorous : Bool
  fast : Bool
  debug_single_value : Bool
  processes : Int
  values : Int
  warmups : Int
  loops : Int
  verbose : Bool
  quiet : Bool
  pipe : Option Int
  output : Option String
  append : Option String
  min_time : ℚ
  worker : Bool
  worker_task : Option Nat
  calibrate : Bool
  tracemalloc : Bool
  track_memory : Bool
  python : String
  compare_to : Option String
deriving DecidableEq

/-- External collaborators of `_process_args` that live outside
`_runner.py`.  `fileExists` is `os.path.exists` (line 266).
`absExecutable` is Modelled from the spec: `abs_executable` from
`perf._utils` (rule 10, resolve executable paths to absolute paths) is not
under `src/`; it is kept abstract here.  `tracemallocOk` is whether
`import tracemalloc` succeeds (line 276); `trackMemoryErr` is the result
of `check_tracking_memory()` (line 286). -/
structure Env where
  fileExists : String → Bool
  absExecutable : String → String
  tracemallocOk : Bool
  trackMemoryErr : Option String

/-- Lines 231-235: `--pipe` forces quiet mode and clears verbose; otherwise
`--quiet` clears verbose.  Note the source tests `if args.pipe:`, which is
Python truthiness of the file descriptor. -/
def apply_pipe_quiet (a : Args) : Args :=
  if py_truthy_int_opt a.pipe then { a with quiet := true, verbose := false }
  else if a.quiet then { a with verbose := false }
  else a

/-- Lines 237-252: the `--rigorous` / `--fast` / `--debug-single-value`
policy chain.  `dp` and `dv` are the parser defaults for
processes and values (`argparser.get_default`). -/
def apply_flag_policy (dp dv : Int) (a : Args) : Args :=
  if a.rigorous then { a with processes := dp * 2 }
  else if a.fast then
    { a with processes := max (Int.fdiv dp 2) 3,
             values := max (Int.fdiv (dv * 2) 3) 2 }
  else if a.debug_single_value then
    { a with processes := 1, warmups := 0, values := 1, loops := 1,
             min_time := 1 / 1000000000 }
  else a

/-- Lines 254-263: `--calibrate` requires `--worker` (else fatal) and
zeroes `loops`, `warmups` and `values`. -/
def apply_calibrate (a : Args) : Except String Args :=
  if a.calibrate then
    if !a.worker then
      .error "ERROR: Calibration can only be done in a worker process"
    else
      .ok { a with loops := 0, warmups := 0, values := 0 }
  else .ok a

/-- Lines 292-294: resolve `args.python` and (when truthy) the
`args.compare_to` executable to absolute paths. -/
def resolve_paths (env : Env) (a : Args) : Args :=
  { a with python := env.absExecutable a.python,
           compare_to :=
             if py_truthy_str_opt a.compare_to then
               a.compare_to.map env.absExecutable
             else a.compare_to }

/-- Lines 265-301: the fatal checks of `_process_args` after the policy
stages, in source order: existing output file, `--worker-task` without
`--worker`, tracemalloc availability, memory-tracking availability, then
path resolution and the `--compare-to` exclusivity check. -/
def guard_checks (env : Env) (a : Args) : Except String Args :=
  if py_truthy_str_opt a.output && env.fileExists (a.output.getD "") then
    .error "ERROR: The JSON file already exists"
  else if py_truthy_nat_opt a.worker_task && !a.worker then
    .error "ERROR: --worker-task can only be used with --worker"
  else if a.tracemalloc && !env.tracemallocOk then
    .error "ERROR: fail to import tracemalloc"
  else if a.track_memory && env.trackMemoryErr.isSome then
    .error "ERROR: unable to track the memory usage"
  else
    if py_truthy_str_opt (resolve_paths env a).compare_to then
      if py_truthy_str_opt (resolve_paths env a).output then
        .error "ERROR: --output option is incompatible with --compare-to option"
      else if py_truthy_str_opt (resolve_paths env a).append then
        .error "ERROR: --append option is incompatible with --compare-to option"
      else .ok (resolve_paths env a)
    else .ok (resolve_paths env a)

/-- `Runner._process_args` (lines 228-301): the mutation stages followed by
the fatal checks.  `sys.exit(1)` with a printed diagnostic is rendered as
`Except.error` of that diagnostic. -/
def process_args (env : Env) (dp dv : Int) (a : Args) : Except String Args :=
  match apply_calibrate (apply_flag_policy dp dv (apply_pipe_quiet a)) with
  | .error e => .error e
  | .ok a3 => guard_checks env a3

/-- Projection of a successful `process_args` result (the input is returned
unchanged on the error paths, which the theorems never take). -/
def process_args_out (env : Env) (dp dv : Int) (a : Args) : Args :=
  match process_args env dp dv a with
  | .ok a2 => a2
  | .error _ => a

/-- One sample sequence produced by one worker execution of one task
(the `perf` Run object, external to `_runner.py`): warmup samples, value
samples, and the loop count that `Run._get_loops()` reports (used by the
calibration extraction at line 619). -/
structure Run where
  warmup_samples : List ℚ
  value_samples : List ℚ
  loops : Int
deriving DecidableEq

/-- A named aggregate of Runs (the `perf.Benchmark` container, external to
`_runner.py`). -/
structure Benchmark where
  name : String
  runs : List Run
deriving DecidableEq

/-- A set of Benchmarks decoded from one worker pipe payload
(`suite.get_benchmarks()` at line 600). -/
structure Suite where
  benchmarks : List Benchmark
deriving DecidableEq

/-- The observable outcome of spawning one worker child process: its exit
code (line 533) and the suite decoded from its pipe payload by
`_load_suite_from_pipe` (line 539), `none` when no JSON was produced. -/
structure WorkerResult where
  exitcode : Int
  payload : Option Suite
deriving DecidableEq

/-- Modelled from the spec: `perf.Benchmark.add_runs` is not under `src/`;
per the specification a merged worker Benchmark contributes its Runs to the
running aggregate, the first worker seeding it (lines 624-627). -/
def merge_bench : Option Benchmark → Benchmark → Option Benchmark
  | none, wb => some wb
  | some b, wb => some { b with runs := b.runs ++ wb.runs }

/-- The mutable state of one `_spawn_workers` loop iteration: the running
aggregate `bench`, the argument namespace (whose `loops` field calibration
overwrites at line 619), and the `calibrate` flag that is true only for the
first worker when calibration is needed. -/
structure SpawnState where
  bench : Option Benchmark
  args : Args
  calibrate : Bool
deriving DecidableEq

/-- One iteration of the `_spawn_workers` loop (lines 595-629), composed
with the fatal exit-code check of `_spawn_worker` (lines 533-537): a
nonzero exit code, a missing JSON payload and a payload holding a number of
benchmarks different from one are fatal; otherwise the calibration result
is extracted on the calibration iteration and the worker Benchmark is
merged into the aggregate. -/
def spawn_step (w : WorkerResult) (st : SpawnState) : Except String SpawnState :=
  if w.exitcode != 0 then
    .error ("worker failed with exit code " ++ toString w.exitcode)
  else
    match w.payload with
    | none => .error "perf worker process did not produce JSON result"
    | some suite =>
      match suite.benchmarks with
      | [wb] =>
        if st.calibrate then
          match wb.runs.head? with
          | none => .error "IndexError: list index out of range"
          | some r =>
            .ok { st with args := { st.args with loops := r.loops },
                          calibrate := false,
                          bench := merge_bench st.bench wb }
        else
          .ok { st with calibrate := false, bench := merge_bench st.bench wb }
      | bs =>
        .error ("worker produced " ++ toString bs.length
                  ++ " benchmarks instead of 1")

/-- The `for process in range(1, nprocess + 1)` loop of `_spawn_workers`,
folded over the per-worker outcomes. -/
def spawn_loop : List WorkerResult → SpawnState → Except String SpawnState
  | [], st => .ok st
  | w :: ws, st =>
    match spawn_step w st with
    | .error e => .error e
    | .ok st1 => spawn_loop ws st1

/-- Line 587: `need_calibration = (not args.loops)`, Python truthiness of
the loop count, so calibration is needed exactly when `loops` is zero. -/
def need_calibration (args : Args) : Bool := args.loops == 0

/-- `Runner._spawn_workers` (lines 580-638): one extra calibration worker
is prepended when `args.loops` is falsy (zero); the workers run
sequentially, their outcomes given by the oracle `results`; at the end the
old value of `loops` is restored (line 636).  Returns the aggregated
Benchmark together with the final argument namespace. -/
def spawn_workers (results : Nat → WorkerResult) (args : Args) :
    Except String (Option Benchmark × Args) :=
  match spawn_loop
      ((List.range ((args.processes +
          (if need_calibration args then 1 else 0)).toNat)).map results)
      { bench := none, args := args, calibrate := need_calibration args } with
  | .error e => .error e
  | .ok st => .ok (st.bench, { st.args with loops := args.loops })

/-- Projection of the aggregated Benchmark of a successful
`spawn_workers` call. -/
def spawn_workers_out_bench (results : Nat → WorkerResult) (a : Args) :
    Option Benchmark :=
  match spawn_workers results a with
  | .ok p => p.1
  | .error _ => none

/-- Projection of the final argument namespace of a successful
`spawn_workers` call. -/
def spawn_workers_out_args (results : Nat → WorkerResult) (a : Args) : Args :=
  match spawn_workers results a with
  | .ok p => p.2
  | .error _ => a

/-- Number of Runs held by an optional aggregate Benchmark. -/
def bench_run_count : Option Benchmark → Nat
  | none => 0
  | some b => b.runs.length

/-- A worker outcome respecting the protocol of the in-source worker path
(`Runner._worker`, lines 359-364): exit code zero and a payload of exactly
one Benchmark holding exactly one Run. -/
def good_worker (w : WorkerResult) : Prop :=
  w.exitcode = 0 ∧ ∃ wb, w.payload = some ⟨[wb]⟩ ∧ wb.runs.length = 1

/-- The registration-path state of a `Runner` instance: the
`_worker_task` counter (line 101), the `_bench_names` uniqueness set
(line 104, as a list), and the parsed arguments. -/
structure RunnerState where
  worker_task : Nat
  bench_names : List String
  args : Args
deriving DecidableEq

/-- `Runner._check_worker_task` (lines 366-377): with `--worker-task` unset
every task runs; otherwise a task whose id differs from the current counter
is skipped, the counter advancing by one. -/
def check_worker_task (st : RunnerState) : Bool × RunnerState :=
  match st.args.worker_task with
  | none => (true, st)
  | some k =>
    if k != st.worker_task then (false, { st with worker_task := st.worker_task + 1 })
    else (true, st)

/-- `Runner._main` (lines 379-399): refuse duplicate benchmark names, add
the name to the uniqueness set, dispatch (worker, compare or master path,
abstracted by `dispatch`; the compare path returns no Benchmark), then
advance the worker-task counter. -/
def main_dispatch (dispatch : Args → String → Option Benchmark)
    (name : String) (st : RunnerState) :
    Except String (Option Benchmark × RunnerState) :=
  if name ∈ st.bench_names then
    .error ("duplicated benchmark name: " ++ name)
  else
    let st1 := { st with bench_names := name :: st.bench_names }
    .ok (dispatch st1.args name, { st1 with worker_task := st1.worker_task + 1 })

/-- The common shape of the registration operations `bench_func`,
`bench_time_func`, `bench_command` and `timeit` (lines 409-476 and
689-727): worker-task filtering first (returning `none` without running
the task when skipped), then `_main`. -/
def register_task (dispatch : Args → String → Option Benchmark)
    (name : String) (st : RunnerState) :
    Except String (Option Benchmark × RunnerState) :=
  match check_worker_task st with
  | (false, st1) => .ok (none, st1)
  | (true, st1) => main_dispatch dispatch name st1

/-- A sequence of registration calls, in program order. -/
def register_all (dispatch : Args → String → Option Benchmark) :
    List String → RunnerState →
    Except String (List (Option Benchmark) × RunnerState)
  | [], st => .ok ([], st)
  | n :: ns, st =>
    match register_task dispatch n st with
    | .error e => .error e
    | .ok (r, st1) =>
      match register_all dispatch ns st1 with
      | .error e => .error e
      | .ok (rs, st2) => .ok (r :: rs, st2)

/-- The per-registration outcomes of a successful registration sequence. -/
def register_outcomes (dispatch : Args → String → Option Benchmark)
    (names : List String) (st : RunnerState) : List (Option Benchmark) :=
  match register_all dispatch names st with
  | .ok p => p.1
  | .error _ => []

/-- The final worker-task counter of a successful registration sequence. -/
def register_final_count (dispatch : Args → String → Option Benchmark)
    (names : List String) (st : RunnerState) : Nat :=
  match register_all dispatch names st with
  | .ok p => p.2.worker_task
  | .error _ => 0

/-- The worker-mode dispatch (`Runner._worker`, lines 359-364): pin the
CPU (no observable effect in the model), build one Run for the task and
wrap it in a one-Run Benchmark.  `cr` abstracts `task.create_run()`. -/
def worker_dispatch (cr : String → Run) (_a : Args) (name : String) :
    Option Benchmark :=
  some { name := name, runs := [cr name] }

/-- The outcome list a worker-task-filtered registration sequence is
expected to produce: `some` one-Run Benchmark at the position whose running
counter equals the target id, `none` everywhere else. -/
def expected_results (cr : String → Run) (K : Nat) : Nat → List String → List (Option Benchmark)
  | _, [] => []
  | c, n :: ns =>
    (if c = K then some { name := n, runs := [cr n] } else none)
      :: expected_results cr K (c + 1) ns

/-- The uniqueness set a worker-task-filtered registration sequence leaves
behind: only the task that actually ran was added. -/
def final_names (K : Nat) : Nat → List String → List String → List String
  | _, [], bn => bn
  | c, n :: ns, bn =>
    if c = K then final_names K (c + 1) ns (n :: bn)
    else final_names K (c + 1) ns bn

/-- Python truthiness of an optional int constructor parameter (`None`,
`0` and `False` are falsy), used by `Runner.__init__` lines 73, 80, 86. -/
def py_falsy_int_opt : Option Int → Bool
  | none => true
  | some v => v == 0

/-- The three counts `Runner.__init__` resolves. -/
structure RunnerDefaults where
  values : Int
  warmups : Int
  processes : Int
deriving DecidableEq

/-- `Runner.__init__` default resolution (lines 67-92): a falsy `values`,
`warmups` or `processes` parameter is replaced by the runtime default,
which depends on `perf.python_has_jit()`; `warmups` defaults to
`int(math.ceil(1.0 / min_time))` under a JIT. -/
def runner_init_defaults (has_jit : Bool) (min_time : ℚ)
    (values warmups processes : Option Int) : RunnerDefaults :=
  { values :=
      if py_falsy_int_opt values then (if has_jit then 10 else 3)
      else values.getD 0,
    warmups :=
      if py_falsy_int_opt warmups then (if has_jit then ⌈1 / min_time⌉ else 1)
      else warmups.getD 0,
    processes :=
      if py_falsy_int_opt processes then (if has_jit then 6 else 20)
      else processes.getD 0 }

/-! Concrete inputs used to exercise the theorems on the code. -/

/-- An environment with no pre-existing files, identity path resolution and
both memory facilities available. -/
def env0 : Env :=
  { fileExists := fun _ => false, absExecutable := id,
    tracemallocOk := true, trackMemoryErr := none }

/-- A default-shaped parsed argument namespace (no JIT defaults:
20 processes, 3 values, 1 warmup, automatic calibration). -/
def args0 : Args :=
  { rigorous := false, fast := false, debug_single_value := false,
    processes := 20, values := 3, warmups := 1, loops := 0,
    verbose := false, quiet := false, pipe := none, output := none,
    append := none, min_time := 1 / 10, worker := false, worker_task := none,
    calibrate := false, tracemalloc := false, track_memory := false,
    python := "python3", compare_to := none }

/-- A sample worker Run (one value of 10 ms measured with 7 loops). -/
def runEx : Run := { warmup_samples := [], value_samples := [1 / 100], loops := 7 }

/-- A protocol-respecting worker outcome: exit code 0, one Benchmark, one Run. -/
def goodW : WorkerResult :=
  { exitcode := 0, payload := some ⟨[{ name := "b", runs := [runEx] }]⟩ }

/-- A worker oracle on which every spawned worker behaves. -/
def oracle1 : Nat → WorkerResult := fun _ => goodW

/-- Master arguments with one process and automatic calibration. -/
def cargsCal : Args := { args0 with processes := 1, loops := 0 }

/-- A constant `task.create_run()` oracle. -/
def crEx : String → Run := fun _ => runEx

/-- Worker-mode arguments targeting worker task 1. -/
def a2w : Args := { args0 with worker := true, worker_task := some 1 }

/-- Worker-mode arguments targeting worker task 0. -/
def a5 : Args := { args0 with worker := true, worker_task := some 0 }

/-- Arguments exhibiting the `--worker-task 0` truthiness slip: task id 0
given while `--worker` is absent. -/
def c4args : Args := { args0 with worker := false, worker_task := some 0 }

/-- Arguments exhibiting the `--pipe 0` truthiness gap: pipe file
descriptor 0 with verbose mode requested. -/
def c7args : Args := { args0 with pipe := some 0, verbose := true, quiet := false }

/-! Stage characterization lemmas for `process_args`. -/

theorem apply_pipe_quiet_of_pipe (a : Args) (h : py_truthy_int_opt a.pipe = true) :
    apply_pipe_quiet a = { a with quiet := true, verbose := false } := by
  unfold apply_pipe_quiet
  simp [h]

theorem apply_pipe_quiet_of_quiet (a : Args) (h1 : py_truthy_int_opt a.pipe = false)
    (h2 : a.quiet = true) :
    apply_pipe_quiet a = { a with verbose := false } := by
  unfold apply_pipe_quiet
  simp [h1, h2]

theorem apply_pipe_quiet_of_neither (a : Args) (h1 : py_truthy_int_opt a.pipe = false)
    (h2 : a.quiet = false) :
    apply_pipe_quiet a = a := by
  unfold apply_pipe_quiet
  simp [h1, h2]

theorem apply_pipe_quiet_shape (a : Args) :
    ∃ q v, apply_pipe_quiet a = { a with quiet := q, verbose := v } := by
  unfold apply_pipe_quiet
  split
  · exact ⟨_, _, rfl⟩
  split
  · exact ⟨_, _, rfl⟩
  · exact ⟨a.quiet, a.verbose, rfl⟩

theorem apply_flag_policy_of_rigorous (dp dv : Int) (a : Args) (h : a.rigorous = true) :
    apply_flag_policy dp dv a = { a with processes := dp * 2 } := by
  unfold apply_flag_policy
  simp [h]

theorem apply_flag_policy_of_fast (dp dv : Int) (a : Args) (h1 : a.rigorous = false)
    (h2 : a.fast = true) :
    apply_flag_policy dp dv a =
      { a with processes := max (Int.fdiv dp 2) 3,
               values := max (Int.fdiv (dv * 2) 3) 2 } := by
  unfold apply_flag_policy
  simp [h1, h2]

theorem apply_flag_policy_of_debug (dp dv : Int) (a : Args) (h1 : a.rigorous = false)
    (h2 : a.fast = false) (h3 : a.debug_single_value = true) :
    apply_flag_policy dp dv a =
      { a with processes := 1, warmups := 0, values := 1, loops := 1,
               min_time := 1 / 1000000000 } := by
  unfold apply_flag_policy
  simp [h1, h2, h3]

theorem apply_flag_policy_of_none (dp dv : Int) (a : Args) (h1 : a.rigorous = false)
    (h2 : a.fast = false) (h3 : a.debug_single_value = false) :
    apply_flag_policy dp dv a = a := by
  unfold apply_flag_policy
  simp [h1, h2, h3]

theorem apply_flag_policy_shape (dp dv : Int) (a : Args) :
    ∃ p vls w l mt, apply_flag_policy dp dv a =
      { a with processes := p, values := vls, warmups := w, loops := l,
               min_time := mt } := by
  unfold apply_flag_policy
  split
  · exact ⟨_, a.values, a.warmups, a.loops, a.min_time, rfl⟩
  split
  · exact ⟨_, _, a.warmups, a.loops, a.min_time, rfl⟩
  split
  · exact ⟨_, _, _, _, _, rfl⟩
  · exact ⟨a.processes, a.values, a.warmups, a.loops, a.min_time, rfl⟩

theorem apply_calibrate_of_false (a : Args) (h : a.calibrate = false) :
    apply_calibrate a = .ok a := by
  unfold apply_calibrate
  simp [h]

theorem apply_calibrate_of_true (a : Args) (h1 : a.calibrate = true)
    (h2 : a.worker = true) :
    apply_calibrate a = .ok { a with loops := 0, warmups := 0, values := 0 } := by
  unfold apply_calibrate
  simp [h1, h2]

theorem apply_calibrate_of_no_worker (a : Args) (h1 : a.calibrate = true)
    (h2 : a.worker = false) :
    apply_calibrate a =
      .error "ERROR: Calibration can only be done in a worker process" := by
  unfold apply_calibrate
  simp [h1, h2]

theorem apply_calibrate_ok_shape (b a3 : Args) (h : apply_calibrate b = .ok a3) :
    ∃ l w v, a3 = { b with loops := l, warmups := w, values := v } := by
  unfold apply_calibrate at h
  split at h
  · split at h
    · cases h
    · injection h with h
      exact ⟨_, _, _, h.symm⟩
  · injection h with h
    exact ⟨b.loops, b.warmups, b.values, h.symm⟩

theorem guard_checks_ok_eq (env : Env) (a a2 : Args)
    (h : guard_checks env a = .ok a2) : a2 = resolve_paths env a := by
  unfold guard_checks at h
  split at h
  · cases h
  split at h
  · cases h
  split at h
  · cases h
  split at h
  · cases h
  split at h
  · split at h
    · cases h
    split at h
    · cases h
    · injection h with h
      exact h.symm
  · injection h with h
    exact h.symm

theorem process_args_ok_shape (env : Env) (dp dv : Int) (a a2 : Args)
    (h : process_args env dp dv a = .ok a2) :
    ∃ a3, apply_calibrate (apply_flag_policy dp dv (apply_pipe_quiet a)) = .ok a3 ∧
      a2 = resolve_paths env a3 := by
  unfold process_args at h
  split at h
  · cases h
  · exact ⟨_, by assumption, guard_checks_ok_eq _ _ _ h⟩

/-- C3: argument processing implements the flag policy chain of lines
237-252: `--rigorous` doubles the default process count and leaves
`values` unchanged; otherwise `--fast` sets
`processes = max(default_processes // 2, 3)` and
`values = max(default_values * 2 // 3, 2)`; otherwise
`--debug-single-value` forces 1 process, 1 value, 0 warmups, 1 loop and
`min_time = 1e-9`.  The `values`/`warmups`/`loops` conclusions are framed
by `--calibrate` being absent, since the later calibration rule
(lines 254-263) overwrites those three fields. -/
theorem C3_flag_policy (env : Env) (dp dv : Int) (a a2 : Args)
    (h : process_args env dp dv a = .ok a2) :
    (a.rigorous = true →
      a2.processes = dp * 2 ∧ (a.calibrate = false → a2.values = a.values)) ∧
    (a.rigorous = false → a.fast = true →
      a2.processes = max (Int.fdiv dp 2) 3 ∧
      (a.calibrate = false → a2.values = max (Int.fdiv (dv * 2) 3) 2)) ∧
    (a.rigorous = false → a.fast = false → a.debug_single_value = true →
      a.calibrate = false →
      a2.processes = 1 ∧ a2.values = 1 ∧ a2.warmups = 0 ∧ a2.loops = 1 ∧
      a2.min_time = 1 / 1000000000) := by
  obtain ⟨a3, hcal, ha2⟩ := process_args_ok_shape env dp dv a a2 h
  obtain ⟨q, v, hpq⟩ := apply_pipe_quiet_shape a
  rw [hpq] at hcal
  subst ha2
  set A1 : Args := { a with quiet := q, verbose := v } with hA1
  refine ⟨?_, ?_, ?_⟩
  · intro hr
    have hr1 : A1.rigorous = true := hr
    rw [apply_flag_policy_of_rigorous dp dv A1 hr1] at hcal
    obtain ⟨l, w, vv, ha3⟩ := apply_calibrate_ok_shape _ _ hcal
    subst ha3
    refine ⟨rfl, ?_⟩
    intro hc
    have hc1 : ({ A1 with processes := dp * 2 } : Args).calibrate = false := hc
    rw [apply_calibrate_of_false _ hc1] at hcal
    injection hcal with hB
    exact (congrArg Args.values hB).symm
  · intro hr hf
    have hr1 : A1.rigorous = false := hr
    have hf1 : A1.fast = true := hf
    rw [apply_flag_policy_of_fast dp dv A1 hr1 hf1] at hcal
    obtain ⟨l, w, vv, ha3⟩ := apply_calibrate_ok_shape _ _ hcal
    subst ha3
    refine ⟨rfl, ?_⟩
    intro hc
    have hc1 : ({ A1 with
        processes := max (Int.fdiv dp 2) 3,
        values := max (Int.fdiv (dv * 2) 3) 2 } : Args).calibrate = false := hc
    rw [apply_calibrate_of_false _ hc1] at hcal
    injection hcal with hB
    exact (congrArg Args.values hB).symm
  · intro hr hf hd hc
    have hr1 : A1.rigorous = false := hr
    have hf1 : A1.fast = false := hf
    have hd1 : A1.debug_single_value = true := hd
    rw [apply_flag_policy_of_debug dp dv A1 hr1 hf1 hd1] at hcal
    have hc1 : ({ A1 with
        processes := 1, warmups := 0, values := 1, loops := 1,
        min_time := 1 / 1000000000 } : Args).calibrate = false := hc
    rw [apply_calibrate_of_false _ hc1] at hcal
    injection hcal with hB
    rw [← hB]
    exact ⟨rfl, rfl, rfl, rfl, rfl⟩

/-- C3 witness: on a concrete debug-single-value flag set the processed
arguments are exactly 1 process, 1 value, 0 warmups, 1 loop, 1e-9 min
time. -/
theorem C3_flag_policy_witness :
    process_args env0 20 3 { args0 with debug_single_value := true } =
        .ok (process_args_out env0 20 3 { args0 with debug_single_value := true }) ∧
    (process_args_out env0 20 3 { args0 with debug_single_value := true }).processes = 1 ∧
    (process_args_out env0 20 3 { args0 with debug_single_value := true }).values = 1 ∧
    (process_args_out env0 20 3 { args0 with debug_single_value := true }).warmups = 0 ∧
    (process_args_out env0 20 3 { args0 with debug_single_value := true }).loops = 1 ∧
    (process_args_out env0 20 3 { args0 with debug_single_value := true }).min_time
      = 1 / 1000000000 :=
  ⟨rfl,
    by
      have h := (C3_flag_policy env0 20 3 { args0 with debug_single_value := true }
        (process_args_out env0 20 3 { args0 with debug_single_value := true }) rfl).2.2
        rfl rfl rfl rfl
      exact ⟨h.1, h.2.1, h.2.2.1, h.2.2.2.1, h.2.2.2.2⟩⟩

/-- C4: the code at line 270 tests `if args.worker_task and not
args.worker`, Python truthiness, so the valid task id 0 passed without
`--worker` is NOT rejected: argument processing succeeds where the
specification requires a fatal single-line diagnostic.  This theorem
evaluates the embedded code at the failing input. -/
theorem C4_worker_task_zero_not_fatal :
    c4args.worker_task = some 0 ∧ c4args.worker = false ∧
    (process_args env0 20 3 c4args).isOk = true := by decide

/-- C7 counterexample: with `--pipe 0` (file descriptor 0) and `--verbose`,
argument processing succeeds but leaves `quiet = false` and
`verbose = true`, because line 231 tests `if args.pipe:` and the integer 0
is falsy; the claim that a set pipe option forces quiet fails at this
input. -/
theorem C7_counterexample :
    c7args.pipe = some 0 ∧
    (process_args env0 20 3 c7args).isOk = true ∧
    (process_args_out env0 20 3 c7args).quiet = false ∧
    (process_args_out env0 20 3 c7args).verbose = true := by decide

/-- C7 (amended): if the pipe option is set to a NONZERO file descriptor
then after argument processing quiet is true and verbose is false; a pipe
option that is unset or set to fd 0 leaves this rule to the quiet flag:
if quiet is set then verbose is false. -/
theorem C7_amended_pipe_quiet (env : Env) (dp dv : Int) (a a2 : Args)
    (h : process_args env dp dv a = .ok a2) :
    (py_truthy_int_opt a.pipe = true → a2.quiet = true ∧ a2.verbose = false) ∧
    (py_truthy_int_opt a.pipe = false → a.quiet = true → a2.verbose = false) := by
  obtain ⟨a3, hcal, ha2⟩ := process_args_ok_shape env dp dv a a2 h
  subst ha2
  constructor
  · intro hp
    rw [apply_pipe_quiet_of_pipe a hp] at hcal
    obtain ⟨p, vls, w, l, mt, hfp⟩ := apply_flag_policy_shape dp dv _
    rw [hfp] at hcal
    obtain ⟨l2, w2, v2, ha3⟩ := apply_calibrate_ok_shape _ _ hcal
    subst ha3
    exact ⟨rfl, rfl⟩
  · intro hp hq
    rw [apply_pipe_quiet_of_quiet a hp hq] at hcal
    obtain ⟨p, vls, w, l, mt, hfp⟩ := apply_flag_policy_shape dp dv _
    rw [hfp] at hcal
    obtain ⟨l2, w2, v2, ha3⟩ := apply_calibrate_ok_shape _ _ hcal
    subst ha3
    exact rfl

/-- C7 witness: a concrete flag set with pipe fd 4 comes out quiet and not
verbose. -/
theorem C7_amended_pipe_quiet_witness :
    process_args env0 20 3 { args0 with pipe := some 4, verbose := true } =
        .ok (process_args_out env0 20 3 { args0 with pipe := some 4, verbose := true }) ∧
    (process_args_out env0 20 3 { args0 with pipe := some 4, verbose := true }).quiet
        = true ∧
    (process_args_out env0 20 3 { args0 with pipe := some 4, verbose := true }).verbose
        = false :=
  ⟨rfl,
    (C7_amended_pipe_quiet env0 20 3 { args0 with pipe := some 4, verbose := true }
      (process_args_out env0 20 3 { args0 with pipe := some 4, verbose := true })
      rfl).1 rfl⟩

theorem guard_checks_compare_error (env : Env) (b : Args) (c : String)
    (hcmp : b.compare_to = some c) (hc : c ≠ "")
    (habs : env.absExecutable c ≠ "")
    (hout : py_truthy_str_opt b.output = true →
      env.fileExists (b.output.getD "") = false)
    (hwt : py_truthy_nat_opt b.worker_task = true → b.worker = true)
    (htm : b.tracemalloc = true → env.tracemallocOk = true)
    (htk : b.track_memory = true → env.trackMemoryErr = none)
    (hconf : py_truthy_str_opt b.output = true ∨ py_truthy_str_opt b.append = true) :
    guard_checks env b =
      .error (if py_truthy_str_opt b.output = true then
          "ERROR: --output option is incompatible with --compare-to option"
        else
          "ERROR: --append option is incompatible with --compare-to option") := by
  have h1 : (py_truthy_str_opt b.output && env.fileExists (b.output.getD "")) = false := by
    cases ho : py_truthy_str_opt b.output
    · simp
    · simp [hout ho]
  have h2 : (py_truthy_nat_opt b.worker_task && !b.worker) = false := by
    cases hw : py_truthy_nat_opt b.worker_task
    · simp
    · simp [hwt hw]
  have h3 : (b.tracemalloc && !env.tracemallocOk) = false := by
    cases ht : b.tracemalloc
    · simp
    · simp [htm ht]
  have h4 : (b.track_memory && env.trackMemoryErr.isSome) = false := by
    cases ht : b.track_memory
    · simp
    · simp [htk ht]
  have h5 : py_truthy_str_opt (resolve_paths env b).compare_to = true := by
    simp only [resolve_paths, hcmp, py_truthy_str_opt]
    have hcb : (c != "") = true := by simpa using hc
    simp [hcb, Option.map, py_truthy_str_opt]
    simpa using habs
  have h6 : (resolve_paths env b).output = b.output := rfl
  have h7 : (resolve_paths env b).append = b.append := rfl
  unfold guard_checks
  rw [h1, h2, h3, h4]
  simp only [Bool.false_eq_true, if_false, h5, if_true, h6, h7]
  cases ho : py_truthy_str_opt b.output
  · rcases hconf with hx | hx
    · rw [ho] at hx
      cases hx
    · simp [hx]
  · simp

/-- C8: a flag set giving `--compare-to` together with `--output` or
`--append` is fatal (lines 296-301): argument processing stops with the
diagnostic naming the conflicting option.  The hypotheses state that the
earlier fatal checks of `_process_args` do not fire first and that
`abs_executable` resolves the given reference interpreter to a nonempty
absolute path, per specification rule 10. -/
theorem C8_compare_exclusive (env : Env) (dp dv : Int) (a : Args) (c : String)
    (hcmp : a.compare_to = some c) (hc : c ≠ "")
    (habs : env.absExecutable c ≠ "")
    (hcal : a.calibrate = true → a.worker = true)
    (hout : py_truthy_str_opt a.output = true →
      env.fileExists (a.output.getD "") = false)
    (hwt : py_truthy_nat_opt a.worker_task = true → a.worker = true)
    (htm : a.tracemalloc = true → env.tracemallocOk = true)
    (htk : a.track_memory = true → env.trackMemoryErr = none)
    (hconf : py_truthy_str_opt a.output = true ∨ py_truthy_str_opt a.append = true) :
    process_args env dp dv a =
      .error (if py_truthy_str_opt a.output = true then
          "ERROR: --output option is incompatible with --compare-to option"
        else
          "ERROR: --append option is incompatible with --compare-to option") := by
  obtain ⟨q, v, hpq⟩ := apply_pipe_quiet_shape a
  unfold process_args
  rw [hpq]
  set A1 : Args := { a with quiet := q, verbose := v } with hA1
  obtain ⟨p, vls, w, l, mt, hfp⟩ := apply_flag_policy_shape dp dv A1
  rw [hfp]
  set A2 : Args := { A1 with
    processes := p, values := vls, warmups := w, loops := l, min_time := mt }
    with hA2
  cases hcb : a.calibrate
  · have hcb2 : A2.calibrate = false := hcb
    rw [apply_calibrate_of_false A2 hcb2]
    exact guard_checks_compare_error env A2 c hcmp hc habs hout hwt htm htk hconf
  · have hcb2 : A2.calibrate = true := hcb
    have hw2 : A2.worker = true := hcal hcb
    rw [apply_calibrate_of_true A2 hcb2 hw2]
    exact guard_checks_compare_error env
      { A2 with loops := 0, warmups := 0, values := 0 } c
      hcmp hc habs hout hwt htm htk hconf

/-- C8 witness: `--compare-to /x` with `--output /o` on an otherwise clean
flag set errors with the output-conflict diagnostic. -/
theorem C8_compare_exclusive_witness :
    ({ args0 with compare_to := some "/x", output := some "/o" } : Args).compare_to
        = some "/x" ∧
    process_args env0 20 3 { args0 with compare_to := some "/x", output := some "/o" }
      = .error "ERROR: --output option is incompatible with --compare-to option" := by
  refine ⟨rfl, ?_⟩
  have h := C8_compare_exclusive env0 20 3
    { args0 with compare_to := some "/x", output := some "/o" } "/x"
    rfl (by decide) (by decide)
    (fun hx => by cases hx)
    (fun _ => rfl) (fun hx => by cases hx) (fun _ => rfl) (fun _ => rfl)
    (Or.inl rfl)
  simpa using h

/-- C6: whatever calibration temporarily wrote into `loops` inside the
worker loop (line 619), a completed `_spawn_workers` hands back an
argument namespace whose `loops` equals the value it had on entry
(lines 586 and 636), so the next benchmark function recalibrates when
`loops` was 0. -/
theorem C6_loops_restored (results : Nat → WorkerResult) (a : Args)
    (b : Option Benchmark) (a2 : Args)
    (h : spawn_workers results a = .ok (b, a2)) : a2.loops = a.loops := by
  unfold spawn_workers at h
  split at h
  · cases h
  · injection h with h
    injection h with h1 h2
    rw [← h2]

/-- C6 witness: a concrete calibrating master (1 process, `loops = 0`)
finishes with `loops` restored to 0. -/
theorem C6_loops_restored_witness :
    spawn_workers oracle1 cargsCal =
        .ok (spawn_workers_out_bench oracle1 cargsCal,
             spawn_workers_out_args oracle1 cargsCal) ∧
    (spawn_workers_out_args oracle1 cargsCal).loops = cargsCal.loops :=
  ⟨rfl,
    C6_loops_restored oracle1 cargsCal
      (spawn_workers_out_bench oracle1 cargsCal)
      (spawn_workers_out_args oracle1 cargsCal) rfl⟩

/-- C9: the master validates each worker outcome (lines 533-537 and
595-604): a nonzero exit code is fatal; exit code 0 with no JSON payload
is fatal; a payload with a number of benchmarks different from one is
fatal; and only an exit-0, one-Benchmark payload is merged into the
aggregate. -/
theorem C9_worker_payload_validation (w : WorkerResult) (st : SpawnState) :
    (w.exitcode ≠ 0 → spawn_step w st =
      .error ("worker failed with exit code " ++ toString w.exitcode)) ∧
    (w.exitcode = 0 → w.payload = none →
      spawn_step w st = .error "perf worker process did not produce JSON result") ∧
    (∀ s, w.exitcode = 0 → w.payload = some s → s.benchmarks.length ≠ 1 →
      spawn_step w st =
        .error ("worker produced " ++ toString s.benchmarks.length
          ++ " benchmarks instead of 1")) ∧
    (∀ s wb, w.exitcode = 0 → w.payload = some s → s.benchmarks = [wb] →
      st.calibrate = false →
      spawn_step w st = .ok { st with calibrate := false,
                                      bench := merge_bench st.bench wb }) := by
  refine ⟨?_, ?_, ?_, ?_⟩
  · intro h
    have hb : (w.exitcode != 0) = true := by simpa using h
    simp [spawn_step, hb]
  · intro h0 hp
    have hb : (w.exitcode != 0) = false := by simpa using h0
    simp [spawn_step, hb, hp]
  · intro s h0 hp hlen
    have hb : (w.exitcode != 0) = false := by simpa using h0
    rcases s with ⟨bs⟩
    match bs, hlen with
    | [], _ => simp [spawn_step, hb, hp]
    | [x], hlen => exact absurd rfl hlen
    | x :: y :: t, _ => simp [spawn_step, hb, hp]
  · intro s wb h0 hp hbs hcal
    have hb : (w.exitcode != 0) = false := by simpa using h0
    simp [spawn_step, hb, hp, hbs, hcal]

/-- C9 witness: a worker dying with exit code 2 is fatal to the master. -/
theorem C9_worker_payload_validation_witness :
    ({ exitcode := 2, payload := none } : WorkerResult).exitcode ≠ 0 ∧
    spawn_step { exitcode := 2, payload := none }
        { bench := none, args := args0, calibrate := false } =
      .error ("worker failed with exit code "
        ++ toString ({ exitcode := 2, payload := none } : WorkerResult).exitcode) :=
  ⟨by decide,
    (C9_worker_payload_validation { exitcode := 2, payload := none }
      { bench := none, args := args0, calibrate := false }).1 (by decide)⟩

theorem bench_run_count_merge (ob : Option Benchmark) (wb : Benchmark) :
    bench_run_count (merge_bench ob wb) = bench_run_count ob + wb.runs.length := by
  cases ob
  · simp [merge_bench, bench_run_count]
  · simp [merge_bench, bench_run_count]

theorem spawn_loop_good (ws : List WorkerResult) :
    ∀ st : SpawnState, (∀ w ∈ ws, good_worker w) →
      ∃ st2, spawn_loop ws st = .ok st2 ∧
        bench_run_count st2.bench = bench_run_count st.bench + ws.length := by
  induction ws with
  | nil =>
    intro st _
    exact ⟨st, rfl, by simp⟩
  | cons w ws ih =>
    intro st hg
    obtain ⟨h0, wb, hp, h1⟩ := hg w (List.mem_cons_self w ws)
    have hb : (w.exitcode != 0) = false := by simpa using h0
    obtain ⟨r, hr⟩ : ∃ r, wb.runs = [r] := by
      cases hruns : wb.runs with
      | nil => rw [hruns] at h1; cases h1
      | cons x t =>
        rw [hruns] at h1
        simp at h1
        subst h1
        exact ⟨x, rfl⟩
    cases hcal : st.calibrate
    · have hstep : spawn_step w st =
          .ok { st with calibrate := false, bench := merge_bench st.bench wb } := by
        simp [spawn_step, hb, hp, hcal]
      obtain ⟨st2, hloop, hcount⟩ :=
        ih { st with calibrate := false, bench := merge_bench st.bench wb }
          (fun x hx => hg x (List.mem_cons_of_mem w hx))
      refine ⟨st2, ?_, ?_⟩
      · simp [spawn_loop, hstep, hloop]
      · rw [hcount]
        simp only [bench_run_count_merge, h1, List.length_cons]
        omega
    · have hstep : spawn_step w st =
          .ok { st with args := { st.args with loops := r.loops },
                        calibrate := false, bench := merge_bench st.bench wb } := by
        simp [spawn_step, hb, hp, hcal, hr]
      obtain ⟨st2, hloop, hcount⟩ :=
        ih { st with args := { st.args with loops := r.loops },
                     calibrate := false, bench := merge_bench st.bench wb }
          (fun x hx => hg x (List.mem_cons_of_mem w hx))
      refine ⟨st2, ?_, ?_⟩
      · simp [spawn_loop, hstep, hloop]
      · rw [hcount]
        simp only [bench_run_count_merge, h1, List.length_cons]
        omega

/-- C1 counterexample: with `processes = 1` and `loops = 0` (automatic
calibration) and every worker following the protocol, the aggregated
Benchmark holds 2 Runs, not `args.processes = 1`: the Benchmark of the
calibration worker seeds the aggregate (lines 624-627), so its Run IS
counted. -/
theorem C1_counterexample :
    cargsCal.processes = 1 ∧ cargsCal.loops = 0 ∧
    (spawn_workers oracle1 cargsCal).isOk = true ∧
    bench_run_count (spawn_workers_out_bench oracle1 cargsCal) = 2 := by decide

/-- C1 (amended): with a positive process count and every spawned worker
returning exit code 0 and a one-Benchmark, one-Run payload,
`_spawn_workers` completes and the aggregated Benchmark holds exactly
`args.processes` Runs when `args.loops` is nonzero, and
`args.processes + 1` Runs when `args.loops = 0` (the Run of the
calibration worker is included in the aggregate). -/
theorem C1_amended_run_count (results : Nat → WorkerResult) (a : Args)
    (hp : 0 < a.processes) (hg : ∀ i, good_worker (results i)) :
    (spawn_workers results a).isOk = true ∧
    bench_run_count (spawn_workers_out_bench results a) =
      a.processes.toNat + (if a.loops = 0 then 1 else 0) := by
  obtain ⟨st2, hloop, hcount⟩ := spawn_loop_good
    ((List.range ((a.processes +
        (if need_calibration a then 1 else 0)).toNat)).map results)
    { bench := none, args := a, calibrate := need_calibration a }
    (by
      intro w hw
      obtain ⟨i, -, hi⟩ := List.mem_map.mp hw
      rw [← hi]
      exact hg i)
  have hcnt2 : bench_run_count st2.bench =
      (a.processes + (if need_calibration a then 1 else 0)).toNat := by
    rw [hcount]
    simp [bench_run_count]
  constructor
  · unfold spawn_workers
    rw [hloop]
    rfl
  · have hbench : spawn_workers_out_bench results a = st2.bench := by
      unfold spawn_workers_out_bench spawn_workers
      rw [hloop]
    rw [hbench, hcnt2]
    by_cases hl : a.loops = 0
    · simp [need_calibration, hl]
      omega
    · simp [need_calibration, hl]

/-- C1 witness: the amended count at the concrete calibrating master:
1 process, loops 0, 2 Runs. -/
theorem C1_amended_run_count_witness :
    (0 : Int) < cargsCal.processes ∧
    ((spawn_workers oracle1 cargsCal).isOk = true ∧
      bench_run_count (spawn_workers_out_bench oracle1 cargsCal) =
        cargsCal.processes.toNat + (if cargsCal.loops = 0 then 1 else 0)) :=
  ⟨by decide,
    C1_amended_run_count oracle1 cargsCal (by decide)
      (fun _ => ⟨rfl, { name := "b", runs := [runEx] }, rfl, rfl⟩)⟩

theorem register_all_worker_mode (cr : String → Run) (K : Nat) (a : Args)
    (ha : a.worker_task = some K) :
    ∀ (names : List String) (c : Nat) (bn : List String),
      (∀ i (h : i < names.length), c + i = K → names.get ⟨i, h⟩ ∉ bn) →
      register_all (worker_dispatch cr) names ⟨c, bn, a⟩ =
        .ok (expected_results cr K c names,
             ⟨c + names.length, final_names K c names bn, a⟩) := by
  intro names
  induction names with
  | nil =>
    intro c bn _
    simp [register_all, expected_results, final_names]
  | cons n ns ih =>
    intro c bn hH
    by_cases hKc : K = c
    · have hnotin : n ∉ bn := hH 0 (by simp) hKc.symm
      have hstep : register_task (worker_dispatch cr) n ⟨c, bn, a⟩ =
          .ok (some { name := n, runs := [cr n] }, ⟨c + 1, n :: bn, a⟩) := by
        simp [register_task, check_worker_task, ha, hKc, main_dispatch, hnotin,
          worker_dispatch]
      have hih := ih (c + 1) (n :: bn) (by
        intro i h hc2
        exact absurd hc2 (by omega))
      have hcc : c = K := hKc.symm
      have harith : c + 1 + ns.length = c + (ns.length + 1) := by omega
      simp only [register_all, hstep, hih, expected_results, final_names,
        List.length_cons]
      rw [if_pos hcc, if_pos hcc, harith]
    · have hstep : register_task (worker_dispatch cr) n ⟨c, bn, a⟩ =
          .ok (none, ⟨c + 1, bn, a⟩) := by
        have hb : (K != c) = true := by simpa using hKc
        simp [register_task, check_worker_task, ha, hb]
      have hih := ih (c + 1) bn (by
        intro i h hc2
        exact hH (i + 1) (by simpa using Nat.succ_lt_succ h) (by omega))
      have hcK : ¬(c = K) := fun hx => hKc hx.symm
      have harith : c + 1 + ns.length = c + (ns.length + 1) := by omega
      simp only [register_all, hstep, hih, expected_results, final_names,
        List.length_cons]
      rw [if_neg hcK, if_neg hcK, harith]

theorem expected_results_getD (cr : String → Run) (K : Nat) :
    ∀ (names : List String) (c i : Nat),
      ((expected_results cr K c names).getD i none).isSome = true ↔
        (i < names.length ∧ c + i = K) := by
  intro names
  induction names with
  | nil =>
    intro c i
    simp [expected_results]
  | cons n ns ih =>
    intro c i
    cases i with
    | zero =>
      by_cases hc : c = K
      · simp [expected_results, hc]
      · simp [expected_results, hc]
    | succ j =>
      simp only [expected_results, List.getD_cons_succ, List.length_cons]
      rw [ih (c + 1) j]
      omega

/-- C2: with `--worker-task K`, a sequence of registration calls routed
through the worker dispatch succeeds, produces `some` one-Run Benchmark at
exactly the K-th 0-based registration and `none` everywhere else, and
advances the internal worker-task counter by exactly one per call
(lines 366-377 and 398), so registration order determines stable ids. -/
theorem C2_worker_task_routing (cr : String → Run) (K : Nat) (a : Args)
    (names : List String) (ha : a.worker_task = some K) :
    (register_all (worker_dispatch cr) names ⟨0, [], a⟩).isOk = true ∧
    register_outcomes (worker_dispatch cr) names ⟨0, [], a⟩ =
      expected_results cr K 0 names ∧
    register_final_count (worker_dispatch cr) names ⟨0, [], a⟩ = names.length ∧
    (∀ i : Nat,
      ((register_outcomes (worker_dispatch cr) names ⟨0, [], a⟩).getD i none).isSome
        = true ↔ (i < names.length ∧ i = K)) := by
  have hmain := register_all_worker_mode cr K a ha names 0 []
    (by intro i h hc; simp)
  have hout : register_outcomes (worker_dispatch cr) names ⟨0, [], a⟩ =
      expected_results cr K 0 names := by
    unfold register_outcomes
    rw [hmain]
  refine ⟨?_, hout, ?_, ?_⟩
  · rw [hmain]
    rfl
  · unfold register_final_count
    rw [hmain]
    simp
  · intro i
    rw [hout]
    have h := expected_results_getD cr K names 0 i
    simpa using h

/-- C2 witness: three registrations under `--worker-task 1` run only the
second one and finish with counter 3. -/
theorem C2_worker_task_routing_witness :
    a2w.worker_task = some 1 ∧
    (register_all (worker_dispatch crEx) ["x", "y", "z"] ⟨0, [], a2w⟩).isOk = true ∧
    register_outcomes (worker_dispatch crEx) ["x", "y", "z"] ⟨0, [], a2w⟩ =
      expected_results crEx 1 0 ["x", "y", "z"] ∧
    register_final_count (worker_dispatch crEx) ["x", "y", "z"] ⟨0, [], a2w⟩ = 3 :=
  ⟨rfl,
    (C2_worker_task_routing crEx 1 a2w ["x", "y", "z"] rfl).1,
    (C2_worker_task_routing crEx 1 a2w ["x", "y", "z"] rfl).2.1,
    (C2_worker_task_routing crEx 1 a2w ["x", "y", "z"] rfl).2.2.1⟩

/-- C5 counterexample: in a worker targeting task 0, a second registration
under the SAME name "dup" is skipped by worker-task filtering and returns
`None` instead of raising: the duplicate-name check lives in `_main`
(lines 380-382), which a skipped registration never reaches, so the claim
fails on this pair of registration calls. -/
theorem C5_counterexample :
    a5.worker_task = some 0 ∧
    register_all (worker_dispatch crEx) ["dup", "dup"] ⟨0, [], a5⟩ =
      .ok ([some { name := "dup", runs := [runEx] }, none],
           ⟨2, ["dup"], a5⟩) :=
  ⟨rfl, rfl⟩

/-- C5 (amended): a second registration under an already-registered name
fails with the duplicated-name error whenever worker-task filtering does
not skip it; in particular whenever `--worker-task` is unset (the master
path and plain worker path), any pair of same-named registrations has the
second one fail.  A registration skipped by `--worker-task` filtering
returns `None` without the name being checked. -/
theorem C5_amended_duplicate_name (dispatch : Args → String → Option Benchmark)
    (name : String) (st st1 : RunnerState) (r : Option Benchmark)
    (hwt : st.args.worker_task = none)
    (h1 : register_task dispatch name st = .ok (r, st1)) :
    register_task dispatch name st1 =
      .error ("duplicated benchmark name: " ++ name) := by
  have hck : check_worker_task st = (true, st) := by
    simp [check_worker_task, hwt]
  have h1m : main_dispatch dispatch name st = .ok (r, st1) := by
    have hrt : register_task dispatch name st = main_dispatch dispatch name st := by
      unfold register_task
      rw [hck]
    rw [← hrt]
    exact h1
  unfold main_dispatch at h1m
  split at h1m
  · cases h1m
  · injection h1m with h2
    injection h2 with hr hst1
    have hwt1 : st1.args.worker_task = none := by
      rw [← hst1]
      exact hwt
    have hck1 : check_worker_task st1 = (true, st1) := by
      simp [check_worker_task, hwt1]
    have hmem : name ∈ st1.bench_names := by
      rw [← hst1]
      exact List.mem_cons_self _ _
    have hrt1 : register_task dispatch name st1 = main_dispatch dispatch name st1 := by
      unfold register_task
      rw [hck1]
    rw [hrt1]
    simp [main_dispatch, hmem]

/-- C5 witness: with `--worker-task` unset, registering "a" twice fails
on the second call. -/
theorem C5_amended_duplicate_name_witness :
    (⟨0, [], args0⟩ : RunnerState).args.worker_task = none ∧
    register_task (worker_dispatch crEx) "a" (⟨1, ["a"], args0⟩ : RunnerState) =
      .error ("duplicated benchmark name: " ++ "a") :=
  ⟨rfl,
    C5_amended_duplicate_name (worker_dispatch crEx) "a" ⟨0, [], args0⟩
      ⟨1, ["a"], args0⟩ (some { name := "a", runs := [runEx] }) rfl rfl⟩

/-- C10: in `Runner.__init__` (lines 67-92) passing a falsy `values`,
`warmups` or `processes` is indistinguishable from omitting the argument:
the runtime defaults are substituted (values 10, warmups ceil(1/min_time),
processes 6 under a JIT; values 3, warmups 1, processes 20 otherwise), and
the resolved `values` and `processes` are never zero. -/
theorem C10_init_defaults (has_jit : Bool) (mt : ℚ) (v w p : Option Int) :
    runner_init_defaults has_jit mt (some 0) w p =
      runner_init_defaults has_jit mt none w p ∧
    runner_init_defaults has_jit mt v (some 0) p =
      runner_init_defaults has_jit mt v none p ∧
    runner_init_defaults has_jit mt v w (some 0) =
      runner_init_defaults has_jit mt v w none ∧
    (runner_init_defaults has_jit mt none w p).values =
      (if has_jit then 10 else 3) ∧
    (runner_init_defaults has_jit mt v none p).warmups =
      (if has_jit then ⌈(1 : ℚ) / mt⌉ else 1) ∧
    (runner_init_defaults has_jit mt v w none).processes =
      (if has_jit then 6 else 20) ∧
    (runner_init_defaults has_jit mt v w p).values ≠ 0 ∧
    (runner_init_defaults has_jit mt v w p).processes ≠ 0 := by
  refine ⟨rfl, rfl, rfl, rfl, rfl, rfl, ?_, ?_⟩
  · unfold runner_init_defaults
    rcases v with _ | x
    · cases has_jit <;> simp [py_falsy_int_opt]
    · by_cases hx : x = 0
      · subst hx
        cases has_jit <;> simp [py_falsy_int_opt]
      · simp [py_falsy_int_opt, hx]
  · unfold runner_init_defaults
    rcases p with _ | x
    · cases has_jit <;> simp [py_falsy_int_opt]
    · by_cases hx : x = 0
      · subst hx
        cases has_jit <;> simp [py_falsy_int_opt]
      · simp [py_falsy_int_opt, hx]

/-- C10 witness: with all three construction parameters omitted on a
non-JIT runtime, the resolved values and processes are nonzero. -/
theorem C10_init_defaults_witness :
    (runner_init_defaults false (1 / 10) none none none).values ≠ 0 ∧
    (runner_init_defaults false (1 / 10) none none none).processes ≠ 0 :=
  ⟨(C10_init_defaults false (1 / 10) none none none).2.2.2.2.2.2.1,
    (C10_init_defaults false (1 / 10) none none none).2.2.2.2.2.2.2⟩

end Perf
